import Mathlib

/-!
Verification development for the chromaframe editing-session engine.

The definitions below are a shallow embedding of the TypeScript sources:
  * `src/lib/sessions.ts`  — the durable session store (SQLite rows + preview files),
  * `src/app/editor.tsx`   — the editor component: annotation state, the transform
    commit (`applyCropAndSwitch`), the save-modal handler, and session hydration.

Modelling conventions:
  * JavaScript numbers that the code uses as integral values (rounded pixel
    coordinates, rotation angle after `Math.round`, stroke widths, ids and
    timestamps) are embedded as `Int`/`Nat`; `Math.round` on an already integral
    value is the identity and is therefore not re-applied in the embedding.
  * `JSON.parse` of a persisted blob is embedded as a value of `Option Json`:
    `none` stands for a blob that is not valid JSON (where `JSON.parse` throws),
    `some j` for the parsed structure.  `JSON.parse (JSON.stringify x) = x` for
    the plain data the app serializes, so the save → load composition is taken
    at the `Json` level.
  * Asynchronous functions are embedded as pure state-passing functions; a
    `throw` becomes an `Except.error`, a swallowed exception (a `try … catch {}`
    around best-effort file cleanup) becomes a Boolean oracle telling whether
    the file-system call would have thrown.
  * The Skia path type is embedded as the ordered list of its points: the first
    point is the `moveTo` target, the remaining points the `lineTo` targets.
    Skia's `toSVGString` / `MakeFromSVGString` are external library functions
    (not part of this repository's sources); they are modelled from the spec's
    Vector Path Codec contract.
-/

/-- A JSON value, as produced by `JSON.parse`.  Numbers are embedded as `Int`
(every number the app serializes is integral). -/
inductive Json where
  | null
  | bool (b : Bool)
  | num (n : Int)
  | str (s : String)
  | arr (xs : List Json)
  | obj (fields : List (String × Json))

/-- Property access `j.k` in JavaScript: `none` models `undefined` (field
missing or receiver not an object). -/
def Json.get (j : Json) (k : String) : Option Json :=
  match j with
  | .obj fields => (fields.find? (fun f => f.1 == k)).map (·.2)
  | _ => none

/-- JavaScript truthiness of a parsed JSON value (`if (initialState)`). -/
def Json.truthy : Json → Bool
  | .null => false
  | .bool b => b
  | .num n => n != 0
  | .str s => s != ""
  | .arr _ => true
  | .obj _ => true

/-- JSON string escaping for the two characters the app's data can force. -/
def jsonEscape (s : String) : String :=
  s.foldl (fun acc c =>
    if c = '"' then acc ++ "\\\"" else if c = '\\' then acc ++ "\\\\" else acc.push c) ""

mutual
/-- JSON.stringify, restricted to the shapes the app produces. -/
def Json.stringify : Json → String
  | .null => "null"
  | .bool true => "true"
  | .bool false => "false"
  | .num n => toString n
  | .str s => "\"" ++ jsonEscape s ++ "\""
  | .arr xs => "[" ++ Json.stringifyList xs ++ "]"
  | .obj fields => "\x7b" ++ Json.stringifyFields fields ++ "\x7d"

def Json.stringifyList : List Json → String
  | [] => ""
  | [x] => Json.stringify x
  | x :: xs => Json.stringify x ++ "," ++ Json.stringifyList xs

def Json.stringifyFields : List (String × Json) → String
  | [] => ""
  | [(k, v)] => "\"" ++ jsonEscape k ++ "\":" ++ Json.stringify v
  | (k, v) :: fs => "\"" ++ jsonEscape k ++ "\":" ++ Json.stringify v ++ "," ++ Json.stringifyFields fs
end

/-! ## Vector Path Codec

Modelled from the spec: the codec (`encode(path) -> string`, `decode(string) ->
path | null`) is Skia's `toSVGString` / `MakeFromSVGString`, an external
library not contained in this repository's sources.  Per §4.1 the encoding is a
portable text form of a move-to followed by line-to segments, and `decode`
returns null (embedded: `none`) on malformed input. -/

/-- A freehand path: the ordered points, first `moveTo` then `lineTo` targets. -/
abbrev SkPathM := List (Int × Int)

/-- Encode one point as `"x y"`. -/
def encodePoint (p : Int × Int) : String := toString p.1 ++ " " ++ toString p.2

/-- Modelled from the spec: Skia `path.toSVGString()` — an SVG path datum
`M x y L x y …` for a move-to followed by line-to segments; the empty path
encodes to the empty string (the editor writes `''` when no encoder exists). -/
def toSVGString : SkPathM → String
  | [] => ""
  | p :: rest => "M" ++ encodePoint p ++ String.join (rest.map (fun q => " L" ++ encodePoint q))

/-- Split a character list at every `" L"` delimiter. -/
def splitOnSpaceL : List Char → List (List Char)
  | [] => [[]]
  | ' ' :: 'L' :: rest => [] :: splitOnSpaceL rest
  | c :: rest =>
      match splitOnSpaceL rest with
      | [] => [[c]]
      | g :: gs => (c :: g) :: gs

/-- Split a character list at every space. -/
def splitOnSpace : List Char → List (List Char)
  | [] => [[]]
  | ' ' :: rest => [] :: splitOnSpace rest
  | c :: rest =>
      match splitOnSpace rest with
      | [] => [[c]]
      | g :: gs => (c :: g) :: gs

/-- Numeric value of a decimal digit character. -/
def digitVal (c : Char) : Option Nat :=
  if c.isDigit then some (c.toNat - 48) else none

/-- Parse a nonempty run of decimal digits. -/
def parseNatChars (cs : List Char) : Option Nat :=
  if cs = [] then none
  else cs.foldl (fun acc c => acc.bind (fun n => (digitVal c).map (fun d => n * 10 + d))) (some 0)

/-- Parse an optionally negated decimal integer. -/
def parseIntChars : List Char → Option Int
  | '-' :: rest => (parseNatChars rest).map (fun n => -(n : Int))
  | cs => (parseNatChars cs).map (fun n => (n : Int))

/-- Parse `"x y"` as a point. -/
def parsePointChars (cs : List Char) : Option (Int × Int) :=
  match splitOnSpace cs with
  | [xs, ys] => do
      let x ← parseIntChars xs
      let y ← parseIntChars ys
      pure (x, y)
  | _ => none

/-- Modelled from the spec: Skia `Skia.Path.MakeFromSVGString` — the inverse of
`toSVGString`; returns `none` (JS: `null`) on malformed input, and the caller
skips that stroke rather than aborting the load. -/
def makeFromSVGString (sv : String) : Option SkPathM :=
  match splitOnSpaceL sv.data with
  | ('M' :: mrest) :: rest => do
      let first ← parsePointChars mrest
      let pts ← rest.mapM parsePointChars
      pure (first :: pts)
  | _ => none

/-! ## Annotation state and the drawing handlers (`src/app/editor.tsx`) -/

/-- An in-memory committed stroke (`interface Stroke` in `editor.tsx`). -/
structure Stroke where
  path : SkPathM
  color : String
  width : Int
deriving DecidableEq

/-- The editor component state the claims are about: the working image URI, the
committed strokes, the in-progress path, and the active tool mode. -/
structure EditorSt where
  currentUri : String
  strokes : List Stroke
  activePath : Option SkPathM
  activeTool : String
deriving DecidableEq

/-- Embedding of `startStroke` (`editor.tsx` lines 527–531): makes a fresh path,
moves to `(x, y)` and stores it as the active path — unconditionally, with no
check of whether a path is already active. -/
def startStroke (x y : Int) (s : EditorSt) : EditorSt :=
  { s with activePath := some [(x, y)] }

/-! ## Transform pipeline (`applyCropAndSwitch`, `editor.tsx` lines 453–510) -/

/-- The `expo-image-manipulator` flip directions. -/
inductive FlipTy where
  | horizontal
  | vertical
deriving DecidableEq

/-- One geometric operation handed to `manipulateAsync`. -/
inductive ImgAction where
  | resize (width height : Int)
  | rotate (angle : Int)
  | flip (t : FlipTy)
  | crop (originX originY width height : Int)
deriving DecidableEq

/-- The optional resize the crop tool reports (`resultCtx.resize`). -/
structure ResizeSpec where
  width : Int
  height : Int
deriving DecidableEq

/-- The gesture context of `cropRef.current.crop(...)`. -/
structure CropContext where
  rotationAngle : Int
  flipHorizontal : Bool
  flipVertical : Bool
deriving DecidableEq

/-- The crop rectangle of the crop result. -/
structure CropRect where
  originX : Int
  originY : Int
  width : Int
  height : Int
deriving DecidableEq

/-- The value returned by `cropRef.current.crop(SCREEN_W)`. -/
structure CropResult where
  resize : Option ResizeSpec
  context : CropContext
  crop : CropRect
deriving DecidableEq

/-- The angle normalization `((angle % 360) + 360) % 360`; the JavaScript `%`
on integral numbers is the truncated remainder, `Int.tmod`. -/
def normalizeAngle (angle : Int) : Int :=
  ((angle.tmod 360) + 360).tmod 360

/-- Embedding of the action-list construction in `applyCropAndSwitch`
(`editor.tsx` lines 462–490): conditional pushes, in source order, onto the
array later handed to `manipulateAsync`. -/
def buildActions (resultCtx : CropResult) : List ImgAction :=
  let actions : List ImgAction := []
  let actions := match resultCtx.resize with
    | some rs => actions ++ [.resize rs.width rs.height]
    | none => actions
  let normAngle := normalizeAngle resultCtx.context.rotationAngle
  let actions := if normAngle ≠ 0 then actions ++ [.rotate normAngle] else actions
  let actions := if resultCtx.context.flipHorizontal then actions ++ [.flip .horizontal] else actions
  let actions := if resultCtx.context.flipVertical then actions ++ [.flip .vertical] else actions
  actions ++ [.crop resultCtx.crop.originX resultCtx.crop.originY resultCtx.crop.width resultCtx.crop.height]

/-- The operation order exactly as the spec sentence states it: resize (if the
crop tool reports one), then rotate by the normalized angle (skipped when it is
0), then horizontal flip (if set), then vertical flip (if set), and the crop
always last.  Written from the spec's words, to be compared with `buildActions`. -/
def specOrderedOps (r : CropResult) : List ImgAction :=
  (match r.resize with
    | some rs => [.resize rs.width rs.height]
    | none => [])
  ++ (if normalizeAngle r.context.rotationAngle ≠ 0 then
        [.rotate (normalizeAngle r.context.rotationAngle)] else [])
  ++ (if r.context.flipHorizontal then [.flip .horizontal] else [])
  ++ (if r.context.flipVertical then [.flip .vertical] else [])
  ++ [.crop r.crop.originX r.crop.originY r.crop.width r.crop.height]

/-- Embedding of `applyCropAndSwitch(nextTool)` (`editor.tsx` lines 453–510).
`cropRef` is the nullable crop-tool ref; `manipulate` is the external geometric
image transformer (`manipulateAsync`), `none` modelling a rejected promise.
The `try`/`catch` in the source means a transformer failure is not rethrown:
the embedding is a total function on the editor state. -/
def applyCropAndSwitch (manipulate : String → List ImgAction → Option String)
    (cropRef : Option CropResult) (nextTool : String) (s : EditorSt) : EditorSt :=
  match cropRef with
  | none => { s with activeTool := nextTool }
  | some resultCtx =>
      match manipulate s.currentUri (buildActions resultCtx) with
      | some uri =>
          { s with currentUri := uri, strokes := [], activePath := none, activeTool := nextTool }
      | none => { s with activeTool := nextTool }

/-! ## Session serialization (save-modal handler, `editor.tsx` lines 856–867) -/

/-- Serialize one committed stroke: `pathSvg` via the codec, color and width
copied (`editor.tsx` lines 856–860). -/
def serializeStroke (s : Stroke) : Json :=
  .obj [("pathSvg", .str (toSVGString s.path)), ("color", .str s.color), ("width", .num s.width)]

/-- The `EditorState` object the save handler builds (`editor.tsx` lines
861–867): original and current URIs, note text, serialized strokes in paint
order, and the canvas dimensions. -/
def serializeState (originalUri currentUri noteText : String) (strokes : List Stroke)
    (canvasW canvasH : Int) : Json :=
  .obj [("originalUri", .str originalUri),
        ("currentUri", .str currentUri),
        ("noteText", .str noteText),
        ("strokes", .arr (strokes.map serializeStroke)),
        ("canvas", .obj [("width", .num canvasW), ("height", .num canvasH)])]

/-! ## Session hydration (`editor.tsx` lines 288–311 and 898–916) -/

/-- JavaScript `a || b` on possibly-undefined values. -/
def jsOr (a b : Option Json) : Option Json :=
  match a with
  | some v => if v.truthy then some v else b
  | none => b

/-- JavaScript `a ?? b` on a possibly-undefined value. -/
def jsNullish (a : Option Json) (b : Json) : Json :=
  match a with
  | some .null => b
  | some v => v
  | none => b

/-- Restore one stroke of the parsed state (`editor.tsx` lines 296–300):
`MakeFromSVGString(s.pathSvg)`, and the stroke is kept only when that returns
a path.  A non-string `pathSvg` (hence an `undefined` argument) never yields a
path; a non-string `color`/non-numeric `width` is embedded by its type default. -/
def decodeStrokeJson (j : Json) : Option Stroke :=
  match j.get "pathSvg" with
  | some (.str sv) =>
      match makeFromSVGString sv with
      | some p =>
          some { path := p,
                 color := match j.get "color" with | some (.str c) => c | _ => "",
                 width := match j.get "width" with | some (.num w) => w | _ => 0 }
      | none => none
  | _ => none

/-- The editor fields the hydrate effect assigns (`editor.tsx` lines 288–311);
URI fields are possibly-undefined JavaScript values (`Option Json`). -/
structure Hydrated where
  originalUri : Option Json
  currentUri : Option Json
  noteText : Json
  strokes : List Stroke
  activePath : Option SkPathM
  activeTool : String

/-- Embedding of the hydrate effect body (`editor.tsx` lines 290–305): URI
fallbacks via `||`, note text via `?? ''`, strokes restored one by one with
undecodable ones skipped, active path cleared, tool set to `'none'`. -/
def hydrate (initialState : Json) : Hydrated :=
  { originalUri := jsOr (initialState.get "originalUri") (initialState.get "currentUri"),
    currentUri := jsOr (initialState.get "currentUri") (initialState.get "originalUri"),
    noteText := jsNullish (initialState.get "noteText") (.str ""),
    strokes :=
      match initialState.get "strokes" with
      | some (.arr xs) => xs.filterMap decodeStrokeJson
      | _ => [],
    activePath := none,
    activeTool := "none" }

/-- Outcome of opening a saved session from its persisted `state_json` blob. -/
inductive LoadOutcome where
  | loadFailed
  | noHydration
  | hydrated (h : Hydrated)

/-- Embedding of the load path (`editor.tsx` lines 898–916 feeding 288–311):
`JSON.parse` throwing (blob not valid JSON, embedded as `none`) is caught and
surfaced as a load failure; otherwise the parsed state hydrates the editor
when it is truthy and is ignored when falsy. -/
def loadSession (blob : Option Json) : LoadOutcome :=
  match blob with
  | none => .loadFailed
  | some j => if j.truthy then .hydrated (hydrate j) else .noHydration

/-! ## Session store (`src/lib/sessions.ts`) -/

/-- The platform the code branches on (`Platform.OS === 'web'`). -/
inductive Platform' where
  | web
  | native
deriving DecidableEq

/-- The errors `sessions.ts` throws before reaching the database. -/
inductive SessionError where
  | webUnsupported (msg : String)
deriving DecidableEq

/-- One row of the `sessions` table (`SessionRow` in `sessions.ts`). -/
structure SessionRow where
  id : Nat
  name : String
  created_at : Nat
  preview_uri : Option String
  state_json : String
deriving DecidableEq

/-- The SQLite database: the rows plus the `AUTOINCREMENT` counter. -/
structure DB where
  rows : List SessionRow
  nextId : Nat
deriving DecidableEq

/-- The preview-file area: the set of existing file URIs. -/
structure FS where
  files : List String
deriving DecidableEq

/-- Embedding of `FileSystem.getInfoAsync(u)).exists`. -/
def FS.existsFile (fs : FS) (u : String) : Bool := fs.files.contains u

/-- Embedding of `FileSystem.deleteAsync(u)`. -/
def FS.deleteFile (fs : FS) (u : String) : FS := ⟨fs.files.filter (fun f => f ≠ u)⟩

/-- Embedding of `SELECT … FROM sessions WHERE id = ? LIMIT 1`. -/
def getRow (db : DB) (id : Nat) : Option SessionRow :=
  db.rows.find? (fun r => r.id == id)

/-- Embedding of `UPDATE sessions SET … WHERE id = ?`. -/
def updateRow (db : DB) (id : Nat) (f : SessionRow → SessionRow) : DB :=
  { db with rows := db.rows.map (fun r => if r.id == id then f r else r) }

/-- Embedding of `saveSession` (`sessions.ts` lines 61–75): throws on web,
otherwise inserts a new row with the current timestamp and returns the new id.
The row content is inserted exactly as given — no name validation happens here. -/
def saveSession (p : Platform') (name : String) (state : Json) (previewUri : Option String)
    (now : Nat) (db : DB) : Except SessionError (DB × Nat) :=
  match p with
  | .web => .error (.webUnsupported "Saving sessions is not supported on web.")
  | .native =>
      let stateJson := state.stringify
      let row : SessionRow :=
        { id := db.nextId, name := name, created_at := now,
          preview_uri := previewUri, state_json := stateJson }
      .ok ({ rows := db.rows ++ [row], nextId := db.nextId + 1 }, db.nextId)

/-- Embedding of `listSessions` (`sessions.ts` lines 77–86): the empty list on
web (before touching the database), otherwise the rows ordered by
`created_at DESC`. -/
def listSessions (p : Platform') (db : DB) : Except SessionError (List SessionRow) :=
  match p with
  | .web => .ok []
  | .native => .ok (List.insertionSort (fun a b => b.created_at ≤ a.created_at) db.rows)

/-- Embedding of `getSession` (`sessions.ts` lines 88–98): `null` on web
(before touching the database), otherwise the row with that id, or `null`. -/
def getSession (p : Platform') (id : Nat) (db : DB) : Except SessionError (Option SessionRow) :=
  match p with
  | .web => .ok none
  | .native => .ok (getRow db id)

/-- Embedding of `updateSession` (`sessions.ts` lines 100–146).  The argument
`previewUri : Option (Option String)` mirrors `string | null | undefined`:
`none` is an omitted argument, `some none` an explicit `null`, `some (some u)`
a string.  `deleteThrows` is the oracle for the swallowed `try … catch {}`
around the best-effort delete of the previous preview file. -/
def updateSession (p : Platform') (deleteThrows : Bool) (id : Nat) (state : Json)
    (previewUri : Option (Option String)) (db : DB) (fs : FS) :
    Except SessionError (DB × FS) :=
  match p with
  | .web => .error (.webUnsupported "Updating sessions is not supported on web.")
  | .native =>
      let stateJson := state.stringify
      match previewUri with
      | none =>
          .ok (updateRow db id (fun r => { r with state_json := stateJson }), fs)
      | some (some u) =>
          if u ≠ "" then
            let old := (getRow db id).bind (fun r => r.preview_uri)
            let db' := updateRow db id
              (fun r => { r with state_json := stateJson, preview_uri := some u })
            let fs' :=
              match old with
              | some oldUri =>
                  if oldUri ≠ "" && oldUri ≠ u then
                    if deleteThrows then fs
                    else if fs.existsFile oldUri then fs.deleteFile oldUri else fs
                  else fs
              | none => fs
            .ok (db', fs')
          else
            .ok (updateRow db id (fun r => { r with state_json := stateJson, preview_uri := none }), fs)
      | some none =>
          .ok (updateRow db id (fun r => { r with state_json := stateJson, preview_uri := none }), fs)

/-- Embedding of `deleteSession` (`sessions.ts` lines 148–170): reads the
row's preview URI, deletes the row, then best-effort deletes the preview file
(failures swallowed via the `deleteThrows` oracle). -/
def deleteSession (p : Platform') (deleteThrows : Bool) (id : Nat) (db : DB) (fs : FS) :
    Except SessionError (DB × FS) :=
  match p with
  | .web => .error (.webUnsupported "Deleting sessions is not supported on web.")
  | .native =>
      let row := getRow db id
      let db' : DB := { db with rows := db.rows.filter (fun r => !(r.id == id)) }
      let fs' :=
        match row.bind (fun r => r.preview_uri) with
        | some pv =>
            if pv ≠ "" then
              if deleteThrows then fs
              else if fs.existsFile pv then fs.deleteFile pv else fs
            else fs
        | none => fs
      .ok (db', fs')

/-! ## Save-modal handler (`editor.tsx` lines 831–877) -/

/-- JavaScript whitespace as used by `String.prototype.trim` (the characters a
session name can realistically carry). -/
def wspJS (c : Char) : Bool := c = ' ' || c = '\t' || c = '\n' || c = '\r'

/-- Modelled from the spec's collaborator surface: JavaScript
`String.prototype.trim`, the whitespace trim the save handler applies. -/
def jsTrim (s : String) : String :=
  String.mk (((s.data.dropWhile wspJS).reverse.dropWhile wspJS).reverse)

/-- Outcome of pressing Save in the save modal. -/
inductive SaveOutcome where
  | notSaved
  | saved (id : Nat)
  | saveFailed (e : SessionError)
deriving DecidableEq

/-- Embedding of the save-modal press handler (`editor.tsx` lines 831–877):
the name is trimmed and an empty result returns early without calling the
store (the button is likewise disabled on `!saveName.trim()`); otherwise
`saveSession` is called with the trimmed name, and a thrown error is caught
and surfaced as a failure alert, leaving the store as it was. -/
def saveModalHandler (p : Platform') (saveName : String) (state : Json)
    (previewUri : Option String) (now : Nat) (db : DB) : SaveOutcome × DB :=
  let name := jsTrim saveName
  if name = "" then (.notSaved, db)
  else
    match saveSession p name state previewUri now db with
    | .ok (db', id) => (.saved id, db')
    | .error e => (.saveFailed e, db)

/-! ## Theorems -/

/-- Helper: the truncated remainder by 360 is strictly above `-360`. -/
theorem tmod_360_lower (a : Int) : -360 < a.tmod 360 := by
  rcases le_or_lt 0 a with h | h
  · have := Int.tmod_nonneg (a := a) 360 h
    omega
  · have h1 : (-a).tmod 360 < 360 := Int.tmod_lt_of_pos (-a) (by norm_num)
    have h2 : (-a).tmod 360 = -(a.tmod 360) := by
      rw [Int.tmod_def, Int.tmod_def, Int.neg_tdiv]; ring
    omega

/-- C1: for every transform commit, the geometric operations handed to the
image transformer are built in the fixed order: resize first (only when the
crop tool reports a resize), then rotate by the angle normalized to `[0, 360)`
(skipped when the normalized angle is 0), then horizontal flip (only when the
flip-horizontal flag is set), then vertical flip (only when the flip-vertical
flag is set), and the crop rectangle always last. -/
theorem claim_C1_transform_op_order (r : CropResult) :
    buildActions r = specOrderedOps r ∧
    (buildActions r).getLast? =
      some (.crop r.crop.originX r.crop.originY r.crop.width r.crop.height) ∧
    0 ≤ normalizeAngle r.context.rotationAngle ∧
    normalizeAngle r.context.rotationAngle < 360 := by
  refine ⟨?_, ?_, ?_, ?_⟩
  · unfold buildActions specOrderedOps
    cases r.resize <;>
      by_cases h : normalizeAngle r.context.rotationAngle ≠ 0 <;>
      cases hH : r.context.flipHorizontal <;>
      cases hV : r.context.flipVertical <;>
      simp [h, hH, hV, List.append_assoc]
  · unfold buildActions
    exact List.getLast?_concat _
  · have hlow := tmod_360_lower (r.context.rotationAngle)
    exact Int.tmod_nonneg 360 (by omega)
  · exact Int.tmod_lt_of_pos _ (by norm_num)

/-- C2: after a successful transform commit the committed stroke list is empty,
there is no active path, and the working image URI has been replaced by the
transformer's output reference — regardless of the strokes and active path
that existed beforehand. -/
theorem claim_C2_commit_clears_annotations
    (manipulate : String → List ImgAction → Option String)
    (r : CropResult) (nextTool : String) (s : EditorSt) (uri : String)
    (h : manipulate s.currentUri (buildActions r) = some uri) :
    (applyCropAndSwitch manipulate (some r) nextTool s).strokes = [] ∧
    (applyCropAndSwitch manipulate (some r) nextTool s).activePath = none ∧
    (applyCropAndSwitch manipulate (some r) nextTool s).currentUri = uri := by
  simp [applyCropAndSwitch, h]

/-- A sample crop result used by the concrete witnesses. -/
def exCropResult : CropResult :=
  { resize := some ⟨390, 585⟩,
    context := { rotationAngle := -90, flipHorizontal := true, flipVertical := false },
    crop := { originX := 0, originY := 0, width := 390, height := 390 } }

/-- A sample editor state with two committed strokes and an active path. -/
def exEditorSt : EditorSt :=
  { currentUri := "file:///img0.png",
    strokes := [⟨[(0, 0), (4, 4)], "#fff", 6⟩, ⟨[(1, 2), (3, 4)], "#000", 10⟩],
    activePath := some [(7, 7)],
    activeTool := "grid" }

/-- Witness for C2 at a concrete successful commit. -/
theorem claim_C2_commit_clears_annotations_witness :
    (applyCropAndSwitch (fun _ _ => some "file:///img1.png") (some exCropResult) "none"
        exEditorSt).strokes = [] ∧
    (applyCropAndSwitch (fun _ _ => some "file:///img1.png") (some exCropResult) "none"
        exEditorSt).activePath = none ∧
    (applyCropAndSwitch (fun _ _ => some "file:///img1.png") (some exCropResult) "none"
        exEditorSt).currentUri = "file:///img1.png" :=
  claim_C2_commit_clears_annotations (fun _ _ => some "file:///img1.png")
    exCropResult "none" exEditorSt "file:///img1.png" rfl

/-- C3: when the underlying image transform fails, the failure is not rethrown
past the caller (the embedded commit is a total function whose `catch` branch
is this case), the tool mode still transitions to the requested next tool, and
the working image URI, the committed strokes and the active path are all left
unchanged. -/
theorem claim_C3_commit_failure_keeps_state
    (manipulate : String → List ImgAction → Option String)
    (r : CropResult) (nextTool : String) (s : EditorSt)
    (h : manipulate s.currentUri (buildActions r) = none) :
    (applyCropAndSwitch manipulate (some r) nextTool s).currentUri = s.currentUri ∧
    (applyCropAndSwitch manipulate (some r) nextTool s).strokes = s.strokes ∧
    (applyCropAndSwitch manipulate (some r) nextTool s).activePath = s.activePath ∧
    (applyCropAndSwitch manipulate (some r) nextTool s).activeTool = nextTool := by
  simp [applyCropAndSwitch, h]

/-- Witness for C3 at a concrete failing transformer. -/
theorem claim_C3_commit_failure_keeps_state_witness :
    (applyCropAndSwitch (fun _ _ => none) (some exCropResult) "brush"
        exEditorSt).currentUri = exEditorSt.currentUri ∧
    (applyCropAndSwitch (fun _ _ => none) (some exCropResult) "brush"
        exEditorSt).strokes = exEditorSt.strokes ∧
    (applyCropAndSwitch (fun _ _ => none) (some exCropResult) "brush"
        exEditorSt).activePath = exEditorSt.activePath ∧
    (applyCropAndSwitch (fun _ _ => none) (some exCropResult) "brush"
        exEditorSt).activeTool = "brush" :=
  claim_C3_commit_failure_keeps_state (fun _ _ => none) exCropResult "brush" exEditorSt rfl

/-- A sample serialized editor state used by concrete store scenarios. -/
def exState : Json :=
  serializeState "file:///o.png" "file:///c.png" "warm tones" [] 390 585

/-- C4 counterexample: the store-level create (`saveSession`) performs no name
validation at all — creating a session with the empty name on a native
platform succeeds and inserts a record, so it neither fails with a
`ValidationError` nor leaves the store without the record. -/
theorem claim_C4_counterexample :
    saveSession .native "" exState none 100 ⟨[], 1⟩ =
      .ok (⟨[⟨1, "", 100, none, exState.stringify⟩], 2⟩, 1) := rfl

/-- C4 as amended: no `ValidationError` exists in the code.  The store-level
create inserts any name unchecked; empty-after-trim names are instead rejected
by the UI save handler, which returns early without touching the store and
raises no error, while a non-empty trimmed name is inserted (trimmed) with the
current timestamp. -/
theorem claim_C4_name_guard (saveName : String) (state : Json) (pv : Option String)
    (now : Nat) (db : DB) :
    (jsTrim saveName = "" →
      saveModalHandler .native saveName state pv now db = (.notSaved, db)) ∧
    (jsTrim saveName ≠ "" →
      saveModalHandler .native saveName state pv now db =
        (.saved db.nextId,
         { rows := db.rows ++ [{ id := db.nextId, name := jsTrim saveName, created_at := now,
                                 preview_uri := pv, state_json := state.stringify }],
           nextId := db.nextId + 1 })) := by
  constructor
  · intro h
    simp [saveModalHandler, h]
  · intro h
    simp [saveModalHandler, h, saveSession]

/-- Witness for C4's amended theorem: `"   "` is silently not saved; `" Sunset "`
is saved as `"Sunset"` with the given timestamp. -/
theorem claim_C4_name_guard_witness :
    saveModalHandler .native "   " exState none 100 ⟨[], 1⟩ = (.notSaved, ⟨[], 1⟩) ∧
    saveModalHandler .native " Sunset " exState none 100 ⟨[], 1⟩ =
      (.saved 1, ⟨[⟨1, "Sunset", 100, none, exState.stringify⟩], 2⟩) := by
  refine ⟨(claim_C4_name_guard "   " exState none 100 ⟨[], 1⟩).1 (by decide), ?_⟩
  have h := (claim_C4_name_guard " Sunset " exState none 100 ⟨[], 1⟩).2 (by decide)
  simpa [jsTrim, wspJS] using h

/-- A valid-JSON blob with no `originalUri` and no `currentUri` field. -/
def exNoRefsJson : Json := .obj [("noteText", .str "x")]

/-- C5 counterexample: a persisted blob that is valid JSON but is missing both
`originalImageRef` and `currentImageRef` does not fail the load — it hydrates
the editor (with undefined URI fields) instead of producing a `CorruptState`
failure. -/
theorem claim_C5_counterexample :
    loadSession (some exNoRefsJson) =
      .hydrated { originalUri := none, currentUri := none, noteText := .str "x",
                  strokes := [], activePath := none, activeTool := "none" } := rfl

/-- C5 as amended: deserialization fails only when the blob is not valid JSON
(`JSON.parse` throws); a parsed blob never fails the load — missing
`originalImageRef`/`currentImageRef` fall back to each other (possibly to
`undefined`) — and individually malformed strokes are dropped by the
per-stroke decoder while the rest of the load succeeds. -/
theorem claim_C5_load_failure_iff (blob : Option Json) (j : Json) (xs : List Json) :
    (loadSession blob = .loadFailed ↔ blob = none) ∧
    (j.get "strokes" = some (.arr xs) →
      (hydrate j).strokes = xs.filterMap decodeStrokeJson) := by
  constructor
  · cases blob with
    | none => simp [loadSession]
    | some j' => by_cases h : j'.truthy <;> simp [loadSession, h]
  · intro h
    simp [hydrate, h]

/-- A strokes array holding one well-formed and one malformed stroke. -/
def exStrokesJson : List Json :=
  [.obj [("pathSvg", .str "M0 0 L4 4"), ("color", .str "#fff"), ("width", .num 6)],
   .obj [("pathSvg", .str "not svg"), ("color", .str "#000"), ("width", .num 10)]]

/-- A valid parsed session state carrying `exStrokesJson`. -/
def exLoadJson : Json :=
  .obj [("currentUri", .str "file:///c.png"), ("strokes", .arr exStrokesJson)]

/-- Witness for C5's amended theorem at a concrete blob: the load does not
fail, and of the two strokes exactly the well-formed one survives. -/
theorem claim_C5_load_failure_iff_witness :
    ((loadSession (some exLoadJson) = .loadFailed ↔ (some exLoadJson = none)) ∧
      (hydrate exLoadJson).strokes = exStrokesJson.filterMap decodeStrokeJson) ∧
    exStrokesJson.filterMap decodeStrokeJson = [⟨[(0, 0), (4, 4)], "#fff", 6⟩] :=
  ⟨⟨(claim_C5_load_failure_iff (some exLoadJson) exLoadJson exStrokesJson).1,
    (claim_C5_load_failure_iff (some exLoadJson) exLoadJson exStrokesJson).2 rfl⟩,
   by decide⟩

/-- Helper: decoding a serialized stroke whose path decodes gives back the
stroke's color and width with the decoded path. -/
theorem decodeStrokeJson_serializeStroke (s : Stroke) (p : SkPathM)
    (hp : makeFromSVGString (toSVGString s.path) = some p) :
    decodeStrokeJson (serializeStroke s) = some ⟨p, s.color, s.width⟩ := by
  simp [decodeStrokeJson, serializeStroke, Json.get, List.find?, hp]

/-- Helper: serializing then decoding a stroke list whose paths all decode
preserves length, order, colors and widths. -/
theorem roundtrip_strokes (ss : List Stroke)
    (hdec : ∀ s ∈ ss, (makeFromSVGString (toSVGString s.path)).isSome) :
    ((ss.map serializeStroke).filterMap decodeStrokeJson).map (fun s => (s.color, s.width))
      = ss.map (fun s => (s.color, s.width)) := by
  induction ss with
  | nil => simp
  | cons s t ih =>
      obtain ⟨p, hp⟩ := Option.isSome_iff_exists.mp (hdec s (List.mem_cons_self s t))
      have ht : ∀ x ∈ t, (makeFromSVGString (toSVGString x.path)).isSome :=
        fun x hx => hdec x (List.mem_cons_of_mem s hx)
      have ih' := ih ht
      simp [List.filterMap_map] at ih' ⊢
      simp [decodeStrokeJson_serializeStroke s p hp, ih']

/-- C6: for every editor state whose strokes all encode and decode
successfully, serializing the state and then hydrating the result yields the
strokes in the same order (paint order preserved), each keeping its color and
width. -/
theorem claim_C6_roundtrip_paint_order (orig cur note : String) (ss : List Stroke)
    (w h : Int)
    (hdec : ∀ s ∈ ss, (makeFromSVGString (toSVGString s.path)).isSome) :
    (hydrate (serializeState orig cur note ss w h)).strokes.map (fun s => (s.color, s.width))
      = ss.map (fun s => (s.color, s.width)) := by
  have hstr : (serializeState orig cur note ss w h).get "strokes"
      = some (.arr (ss.map serializeStroke)) := by
    simp [serializeState, Json.get, List.find?]
  have := roundtrip_strokes ss hdec
  simp only [hydrate, hstr]
  simpa using this

/-- Witness for C6 at a concrete two-stroke state. -/
theorem claim_C6_roundtrip_paint_order_witness :
    (hydrate (serializeState "file:///o.png" "file:///c.png" "n" exEditorSt.strokes 390 585)).strokes.map
        (fun s => (s.color, s.width))
      = exEditorSt.strokes.map (fun s => (s.color, s.width)) :=
  claim_C6_roundtrip_paint_order "file:///o.png" "file:///c.png" "n" exEditorSt.strokes 390 585
    (by decide)

/-- The row with a given id after a store operation (`none` when the
operation failed or the row is absent). -/
def rowAfter (res : Except SessionError (DB × FS)) (id : Nat) : Option SessionRow :=
  match res with
  | .ok (db, _) => getRow db id
  | .error _ => none

/-- The file-system state after a store operation (`none` when it failed). -/
def fsAfter (res : Except SessionError (DB × FS)) : Option FS :=
  match res with
  | .ok (_, fs) => some fs
  | .error _ => none

/-- The database state after a store operation (`none` when it failed). -/
def dbAfter (res : Except SessionError (DB × FS)) : Option DB :=
  match res with
  | .ok (db, _) => some db
  | .error _ => none

/-- Helper: an `UPDATE … WHERE id` with an id-preserving row function rewrites
the found row and only that row is found afterwards. -/
theorem getRow_updateRow (db : DB) (id : Nat) (f : SessionRow → SessionRow)
    (hf : ∀ x, (f x).id = x.id) (r : SessionRow) (h : getRow db id = some r) :
    getRow (updateRow db id f) id = some (f r) := by
  rcases db with ⟨rows, nid⟩
  simp only [getRow, updateRow] at h ⊢
  induction rows with
  | nil => simp at h
  | cons a t ih =>
      cases hb : (a.id == id) with
      | true =>
          have hr : a = r := by simpa [List.find?_cons, hb] using h
          subst hr
          have hfb : ((f a).id == id) = true := by rw [hf a]; exact hb
          simp only [List.map_cons, List.find?_cons, if_pos hb, hfb]
      | false =>
          have h' : List.find? (fun x => x.id == id) t = some r := by
            simpa [List.find?_cons, hb] using h
          have hneg : ¬ ((a.id == id) = true) := by simp [hb]
          simp only [List.map_cons, List.find?_cons, if_neg hneg]
          simpa [hb] using ih h'

/-- C7: for an existing session id, `updateSession` obeys the three-way
`previewRef` contract.  Omitted (`none`): only `state_json` changes and the
stored preview and the file area are untouched.  Concrete reference
(`some (some u)`): `preview_uri` is replaced; the previous preview file is
deleted best-effort — when the file-system call throws the operation still
succeeds with the file area untouched (failure swallowed, never surfaced),
and when it does not throw an existing, different old file is removed.
Explicit null (`some none`): `preview_uri` is cleared.  In every case the
row keeps its id, name and creation timestamp (the record updates below touch
only `state_json`/`preview_uri`). -/
theorem claim_C7_update_previewRef_contract
    (dt : Bool) (id : Nat) (state : Json) (db : DB) (fs : FS) (r : SessionRow)
    (h : getRow db id = some r) :
    (rowAfter (updateSession .native dt id state none db fs) id
        = some { r with state_json := state.stringify } ∧
      fsAfter (updateSession .native dt id state none db fs) = some fs) ∧
    (∀ u : String, u ≠ "" →
      rowAfter (updateSession .native dt id state (some (some u)) db fs) id
          = some { r with state_json := state.stringify, preview_uri := some u } ∧
      (dt = true → fsAfter (updateSession .native dt id state (some (some u)) db fs) = some fs) ∧
      (∀ old : String, dt = false → r.preview_uri = some old → old ≠ "" → old ≠ u →
          fs.existsFile old = true →
          fsAfter (updateSession .native dt id state (some (some u)) db fs)
            = some (fs.deleteFile old))) ∧
    (rowAfter (updateSession .native dt id state (some none) db fs) id
        = some { r with state_json := state.stringify, preview_uri := none } ∧
      fsAfter (updateSession .native dt id state (some none) db fs) = some fs) := by
  refine ⟨⟨?_, rfl⟩, ?_, ⟨?_, rfl⟩⟩
  · simp only [updateSession, rowAfter]
    exact getRow_updateRow db id
      (fun x => { x with state_json := state.stringify }) (fun _ => rfl) r h
  · intro u hu
    refine ⟨?_, ?_, ?_⟩
    · simp only [updateSession, if_pos hu, rowAfter]
      exact getRow_updateRow db id
        (fun x => { x with state_json := state.stringify, preview_uri := some u })
        (fun _ => rfl) r h
    · intro hdt
      subst hdt
      simp only [updateSession, if_pos hu, fsAfter, h]
      cases hpv : r.preview_uri <;> simp [hpv]
    · intro old hdt hpv hne hneu hex
      subst hdt
      simp only [updateSession, if_pos hu, fsAfter, h]
      simp [hpv, hne, hneu, hex]
  · simp only [updateSession, rowAfter]
    exact getRow_updateRow db id
      (fun x => { x with state_json := state.stringify, preview_uri := none })
      (fun _ => rfl) r h

/-- A sample stored session row with preview file `"p1"`. -/
def exRow : SessionRow := ⟨1, "Sunset", 100, some "p1", "sj"⟩

/-- A sample database holding `exRow`. -/
def exDb : DB := ⟨[exRow], 2⟩

/-- A sample file area holding the preview file `"p1"`. -/
def exFs : FS := ⟨["p1"]⟩

/-- Witness for C7 at a concrete store: omitted leaves `"p1"` in place, `"p2"`
replaces it and deletes the `"p1"` file, explicit null clears it. -/
theorem claim_C7_update_previewRef_contract_witness :
    rowAfter (updateSession .native false 1 exState none exDb exFs) 1
        = some { exRow with state_json := exState.stringify } ∧
    rowAfter (updateSession .native false 1 exState (some (some "p2")) exDb exFs) 1
        = some { exRow with state_json := exState.stringify, preview_uri := some "p2" } ∧
    fsAfter (updateSession .native false 1 exState (some (some "p2")) exDb exFs)
        = some (exFs.deleteFile "p1") ∧
    rowAfter (updateSession .native false 1 exState (some none) exDb exFs) 1
        = some { exRow with state_json := exState.stringify, preview_uri := none } := by
  have H := claim_C7_update_previewRef_contract false 1 exState exDb exFs exRow rfl
  exact ⟨H.1.1, (H.2.1 "p2" (by decide)).1,
    (H.2.1 "p2" (by decide)).2.2 "p1" rfl rfl (by decide) (by decide) rfl,
    H.2.2.1⟩

/-- Helper: a `DELETE … WHERE id` over rows in which the id does not occur
leaves the row list unchanged. -/
theorem filter_ne_of_find?_none (rows : List SessionRow) (id : Nat)
    (h : rows.find? (fun x => x.id == id) = none) :
    rows.filter (fun x => !(x.id == id)) = rows := by
  rw [List.filter_eq_self]
  intro a ha
  have := List.find?_eq_none.mp h a ha
  simpa using this

/-- C8: `deleteSession` returns without error on every input, removes exactly
the record with the given id (every other record is untouched), and
best-effort deletes the record's preview file: a file-system throw is
swallowed (the operation still succeeds and the file area is untouched),
otherwise an existing preview file is removed.  For a nonexistent id the
whole operation is a no-op on both the database and the file area. -/
theorem claim_C8_delete_noop_and_cleanup (dt : Bool) (id : Nat) (db : DB) (fs : FS) :
    (dbAfter (deleteSession .native dt id db fs)
        = some ⟨db.rows.filter (fun x => !(x.id == id)), db.nextId⟩) ∧
    (getRow db id = none → deleteSession .native dt id db fs = .ok (db, fs)) ∧
    (∀ r : SessionRow, getRow db id = some r →
      (dt = true → fsAfter (deleteSession .native dt id db fs) = some fs) ∧
      (∀ pv : String, dt = false → r.preview_uri = some pv → pv ≠ "" →
        fs.existsFile pv = true →
        fsAfter (deleteSession .native dt id db fs) = some (fs.deleteFile pv))) := by
  refine ⟨rfl, ?_, ?_⟩
  · intro h
    have hfil := filter_ne_of_find?_none db.rows id h
    simp only [deleteSession, getRow] at *
    simp [h, hfil]
  · intro r h
    constructor
    · intro hdt
      subst hdt
      simp only [deleteSession, fsAfter, h]
      cases hpv : r.preview_uri <;> simp [hpv]
    · intro pv hdt hpv hne hex
      subst hdt
      simp only [deleteSession, fsAfter, h]
      simp [hpv, hne, hex]

/-- Witness for C8 at a concrete store: deleting the nonexistent id 99 is a
no-op, deleting id 1 removes its row and its preview file `"p1"`. -/
theorem claim_C8_delete_noop_and_cleanup_witness :
    deleteSession .native false 99 exDb exFs = .ok (exDb, exFs) ∧
    dbAfter (deleteSession .native false 1 exDb exFs)
      = some ⟨exDb.rows.filter (fun x => !(x.id == 1)), exDb.nextId⟩ ∧
    fsAfter (deleteSession .native false 1 exDb exFs) = some (exFs.deleteFile "p1") := by
  have H99 := claim_C8_delete_noop_and_cleanup false 99 exDb exFs
  have H1 := claim_C8_delete_noop_and_cleanup false 1 exDb exFs
  exact ⟨H99.2.1 rfl, H1.1, (H1.2.2 exRow rfl).2 "p1" rfl rfl (by decide) rfl⟩

/-- C9 counterexample: with an active path already present, `startStroke`
does not fail — it starts another path, replacing the in-progress one with
the fresh single-point path. -/
theorem claim_C9_counterexample :
    exEditorSt.activePath.isSome = true ∧
    (startStroke 5 6 exEditorSt).activePath = some [(5, 6)] ∧
    (startStroke 5 6 exEditorSt).activePath ≠ exEditorSt.activePath := by
  decide

/-- C9 as amended: `beginStroke` never fails and performs no already-active
check; it unconditionally replaces the active path with the fresh one-point
path (discarding any in-progress path) and leaves the committed strokes and
the working image untouched.  At most one active path exists at any time
because the state holds at most one — by construction, not by rejecting
begins. -/
theorem claim_C9_beginStroke_replaces (x y : Int) (s : EditorSt) :
    (startStroke x y s).activePath = some [(x, y)] ∧
    (startStroke x y s).strokes = s.strokes ∧
    (startStroke x y s).currentUri = s.currentUri := by
  simp [startStroke]

/-- C10: on the web platform the store's reads silently degrade while its
writes throw: `listSessions` returns the empty list and `getSession` returns
null for every id and every database state (no storage is consulted — the
result is the same for all of them), whereas `saveSession`, `updateSession`
and `deleteSession` each throw their unsupported-environment error. -/
theorem claim_C10_web_reads_degrade_writes_throw
    (id : Nat) (db : DB) (fs : FS) (name : String) (state : Json)
    (pv : Option String) (now : Nat) (dt : Bool) (pvu : Option (Option String)) :
    listSessions .web db = .ok [] ∧
    getSession .web id db = .ok none ∧
    saveSession .web name state pv now db
      = .error (.webUnsupported "Saving sessions is not supported on web.") ∧
    updateSession .web dt id state pvu db fs
      = .error (.webUnsupported "Updating sessions is not supported on web.") ∧
    deleteSession .web dt id db fs
      = .error (.webUnsupported "Deleting sessions is not supported on web.") :=
  ⟨rfl, rfl, rfl, rfl, rfl⟩
